import Mathlib

/-!
Formal model of the rabbit-digger-pro FFI lifecycle boundary declared in
`src/ffi/rdp.h`.

The header declares the opaque runtime type `RdpRuntime`, the handle type
`RDP` (a pointer to `RdpRuntime`), the signed 32-bit result type `RESULT`
with wire codes `RESULT_OK = 0`, `RESULT_ERR_UNKNOWN = -1`,
`RESULT_ERR_UTF8 = -2`, `RESULT_ERR_CLOSED = -3`, and four entry points:

  void   rdp_setup_stdout_logger(void);
  RESULT rdp_run(RDP *rabbit_digger, const char *config);
  RESULT rdp_update_config(RDP rabbit_digger, const char *config);
  RESULT rdp_stop(RDP *rabbit_digger);

Only this header is part of the repository snapshot; the lifecycle
controller behind it is modelled from the specification of the boundary:
UTF-8 validation at the boundary before any other effect, start producing
a fresh exclusively owned handle, update with rollback on rejected
configurations, stop reclaiming the instance and reporting `ErrClosed` on
any later use, and per-handle serialization of lifecycle operations.
The excluded workload is a parameter, the capability interface called the
Workload Adapter by the specification.
-/

/-- Wire code `RESULT_OK` (0) from `rdp.h`. -/
def RESULT_OK : Int := 0

/-- Wire code `RESULT_ERR_UNKNOWN` (-1) from `rdp.h`. -/
def RESULT_ERR_UNKNOWN : Int := -1

/-- Wire code `RESULT_ERR_UTF8` (-2) from `rdp.h`. -/
def RESULT_ERR_UTF8 : Int := -2

/-- Wire code `RESULT_ERR_CLOSED` (-3) from `rdp.h`. -/
def RESULT_ERR_CLOSED : Int := -3

/-- Range of a C `int32_t` value; `rdp.h` defines `typedef int32_t RESULT`. -/
def int32Range (i : Int) : Prop := -(2 ^ 31) ≤ i ∧ i < 2 ^ 31

/-- Status results of the boundary operations: one constructor per wire
code defined in `rdp.h`. -/
inductive Status where
  | ok
  | errUnknown
  | errUtf8
  | errClosed
deriving DecidableEq

/-- Wire value of a status, matching the `#define` constants of `rdp.h`. -/
def Status.wire : Status → Int
  | .ok => RESULT_OK
  | .errUnknown => RESULT_ERR_UNKNOWN
  | .errUtf8 => RESULT_ERR_UTF8
  | .errClosed => RESULT_ERR_CLOSED

/-- Is a byte a UTF-8 continuation byte (`0x80..0xBF`)? -/
def isCont (b : Nat) : Bool := 0x80 ≤ b && b ≤ 0xBF

/-- Modelled from the spec: the Rust implementation behind `rdp.h` is not
in `src/`; the boundary receives each configuration as a null-terminated
byte blob and validates it as UTF-8 text before anything else. This is
the standard UTF-8 well-formedness check (RFC 3629): ASCII bytes stand
alone, two- to four-byte sequences have the right lead and continuation
ranges, overlong encodings, surrogates and code points above `0x10FFFF`
are rejected. Bytes are modelled as natural numbers; a value outside
`0..255` is never a valid lead or continuation byte. -/
def validUtf8 : List Nat → Bool
  | [] => true
  | b :: rest =>
    if b ≤ 0x7F then validUtf8 rest
    else if 0xC2 ≤ b && b ≤ 0xDF then
      match rest with
      | c1 :: rest2 => isCont c1 && validUtf8 rest2
      | [] => false
    else if b == 0xE0 then
      match rest with
      | c1 :: c2 :: rest2 =>
        (0xA0 ≤ c1 && c1 ≤ 0xBF) && (isCont c2 && validUtf8 rest2)
      | _ => false
    else if b == 0xED then
      match rest with
      | c1 :: c2 :: rest2 =>
        (0x80 ≤ c1 && c1 ≤ 0x9F) && (isCont c2 && validUtf8 rest2)
      | _ => false
    else if 0xE1 ≤ b && b ≤ 0xEF then
      match rest with
      | c1 :: c2 :: rest2 => isCont c1 && (isCont c2 && validUtf8 rest2)
      | _ => false
    else if b == 0xF0 then
      match rest with
      | c1 :: c2 :: c3 :: rest2 =>
        (0x90 ≤ c1 && c1 ≤ 0xBF) && (isCont c2 && (isCont c3 && validUtf8 rest2))
      | _ => false
    else if 0xF1 ≤ b && b ≤ 0xF3 then
      match rest with
      | c1 :: c2 :: c3 :: rest2 =>
        isCont c1 && (isCont c2 && (isCont c3 && validUtf8 rest2))
      | _ => false
    else if b == 0xF4 then
      match rest with
      | c1 :: c2 :: c3 :: rest2 =>
        (0x80 ≤ c1 && c1 ≤ 0x8F) && (isCont c2 && (isCont c3 && validUtf8 rest2))
      | _ => false
    else false

/-- Modelled from the spec: the Workload Adapter, the capability interface
behind which the excluded workload sits. `start` builds a workload from a
configuration or rejects it, `update` applies a new configuration to a
running workload or rejects it, `stop` tears the workload down. The
workload state type `W` is a parameter so that any concrete workload,
including a no-op test double, can be substituted. -/
structure Adapter (W : Type) where
  start : List Nat → Except Unit W
  update : W → List Nat → Except Unit W
  stop : W → Unit

/-- One live runtime instance, the state behind the opaque `RdpRuntime`
struct of `rdp.h`: the current workload together with the configuration
currently applied to it. -/
structure RdpRuntime (W : Type) where
  workload : W
  appliedConfig : List Nat
deriving DecidableEq

/-- Modelled from the spec: the process-wide store of live runtime
instances behind the FFI. Each live instance is keyed by a handle
identity (the model of the `RDP` pointer value); `nextId` provides fresh
identities for new instances. -/
structure RdpWorld (W : Type) where
  instances : List (Nat × RdpRuntime W)
  nextId : Nat
deriving DecidableEq

/-- The caller-side handle variable: the model of an `RDP` value, a
possibly null pointer to an instance identity. -/
abbrev RDP := Option Nat

/-- A world with no live instances. -/
def RdpWorld.empty (W : Type) : RdpWorld W := ⟨[], 0⟩

/-- Look an instance up by handle identity. -/
def lookupInst (id : Nat) : List (Nat × RdpRuntime W) → Option (RdpRuntime W)
  | [] => none
  | p :: rest => if p.1 = id then some p.2 else lookupInst id rest

/-- Remove the instance with the given identity (reclaim its backing
storage). -/
def removeInst (id : Nat) : List (Nat × RdpRuntime W) → List (Nat × RdpRuntime W)
  | [] => []
  | p :: rest => if p.1 = id then removeInst id rest else p :: removeInst id rest

/-- Replace the instance stored under the given identity. -/
def setInst (id : Nat) (inst : RdpRuntime W) :
    List (Nat × RdpRuntime W) → List (Nat × RdpRuntime W)
  | [] => []
  | p :: rest =>
    if p.1 = id then (id, inst) :: rest else p :: setInst id inst rest

/-- Every live identity is below `nextId`, so `nextId` is fresh. -/
def WF (w : RdpWorld W) : Prop := ∀ p ∈ w.instances, p.1 < w.nextId

instance decWF (w : RdpWorld W) : Decidable (WF w) :=
  inferInstanceAs (Decidable (∀ p ∈ w.instances, p.1 < w.nextId))

/-- Modelled from the spec: `rdp_run` (the Start operation; its Rust body
is not in `src/`). The configuration bytes are validated as UTF-8 first,
before any other side effect (`ErrUtf8` on failure, nothing mutated, no
handle produced). Then the Workload Adapter starts a workload from the
configuration; if it rejects, the call reports `ErrUnknown`, mutates
nothing and produces no handle. On success a fresh instance is registered
and exactly one new handle is written through the out-parameter
`RDP *rabbit_digger`; the returned triple is (status, new world, value
written to the out-parameter, `none` meaning null on failure). -/
def rdp_run (A : Adapter W) (w : RdpWorld W) (config : List Nat) :
    Status × RdpWorld W × RDP :=
  if validUtf8 config then
    match A.start config with
    | .ok wl =>
      (.ok, ⟨(w.nextId, ⟨wl, config⟩) :: w.instances, w.nextId + 1⟩,
        some w.nextId)
    | .error _ => (.errUnknown, w, none)
  else (.errUtf8, w, none)

/-- Modelled from the spec: `rdp_update_config` (the Update operation; its
Rust body is not in `src/`). The handle is received by value (header type
`RDP`, not `RDP *`), so the call returns only (status, new world) and
cannot write the handle variable of the caller. The configuration is
validated as UTF-8 at the boundary before any other processing; then a
null or stale handle reports `ErrClosed`; then the Workload Adapter
applies the new configuration: on success it replaces the stored
workload and applied configuration, on rejection the call reports
`ErrUnknown` and the world is unchanged, so the previous configuration
stays in effect (rollback). -/
def rdp_update_config (A : Adapter W) (w : RdpWorld W) (rdp : RDP)
    (config : List Nat) : Status × RdpWorld W :=
  if validUtf8 config then
    match rdp with
    | none => (.errClosed, w)
    | some id =>
      match lookupInst id w.instances with
      | none => (.errClosed, w)
      | some inst =>
        match A.update inst.workload config with
        | .ok wl' => (.ok, ⟨setInst id ⟨wl', config⟩ w.instances, w.nextId⟩)
        | .error _ => (.errUnknown, w)
  else (.errUtf8, w)

/-- Modelled from the spec: `rdp_stop` (the Stop operation; its Rust body
is not in `src/`). It receives the address of the handle variable of the
caller (`RDP *`) and consumes the handle: whatever the outcome, the
variable is overwritten with null (the third component of the result). A
null handle, or an identity whose backing storage was already reclaimed,
reports `ErrClosed`. Otherwise the workload is torn down through the
Workload Adapter, the backing storage of the instance is reclaimed and
the call reports `Ok`. -/
def rdp_stop (A : Adapter W) (w : RdpWorld W) (rdp : RDP) :
    Status × RdpWorld W × RDP :=
  match rdp with
  | none => (.errClosed, w, none)
  | some id =>
    match lookupInst id w.instances with
    | none => (.errClosed, w, none)
    | some inst =>
      match A.stop inst.workload with
      | () => (.ok, ⟨removeInst id w.instances, w.nextId⟩, none)

/-- C call semantics of `rdp_update_config(rdp, config)`: the first
argument has type `RDP` (by value), so the callee works on a copy of the
pointer and the handle variable of the caller is returned unchanged. -/
def update_call (A : Adapter W) (w : RdpWorld W) (rdp : RDP)
    (config : List Nat) : Status × RdpWorld W × RDP :=
  ((rdp_update_config A w rdp config).1, (rdp_update_config A w rdp config).2,
    rdp)

/-- C call semantics of `rdp_run(&rdp, config)`: the callee receives the
address of the handle variable of the caller and overwrites it with the
produced handle (null on failure), regardless of its prior value. -/
def run_call (A : Adapter W) (w : RdpWorld W) (_rdp : RDP)
    (config : List Nat) : Status × RdpWorld W × RDP :=
  rdp_run A w config

/-- Modelled from the spec: the per-handle lock serializes lifecycle
operations, so the observable outcome of several concurrent
`rdp_update_config` calls against one handle is that of running them one
after the other in some serial order. `runUpdates` is that serialized
execution: it threads the world through the update calls of the given
order. -/
def runUpdates (A : Adapter W) (rdp : RDP) (w : RdpWorld W) :
    List (List Nat) → RdpWorld W
  | [] => w
  | c :: rest => runUpdates A rdp (rdp_update_config A w rdp c).2 rest

/-- Modelled from the spec: the process-wide diagnostic sink state. The
only observable is whether the one stdout sink is installed. -/
structure LoggerState where
  sinkInstalled : Bool
deriving DecidableEq

/-- Modelled from the spec: `rdp_setup_stdout_logger` (its Rust body is
not in `src/`). Per the spec it is a one-time, idempotent installation of
a single process-wide diagnostic sink, guarded by a one-time-execution
primitive: whatever the prior state, afterwards exactly the one sink is
installed. It takes no inputs besides the process state and returns no
status (the header return type is `void`). -/
def rdp_setup_stdout_logger (_s : LoggerState) : LoggerState := ⟨true⟩

/-- Number of installed diagnostic sinks. -/
def sinkCount (s : LoggerState) : Nat := if s.sinkInstalled then 1 else 0

/-- A no-op test double workload adapter that accepts every
configuration. -/
def allowAll : Adapter Unit :=
  ⟨fun _ => .ok (), fun _ _ => .ok (), fun _ => ()⟩

/-- A test double workload adapter whose update path rejects every new
configuration. -/
def rejectUpd : Adapter Unit :=
  ⟨fun _ => .ok (), fun _ _ => .error (), fun _ => ()⟩

/-- A world holding one live instance, with identity 0 and applied
configuration `[0x61]`. -/
def oneInstWorld : RdpWorld Unit := ⟨[(0, ⟨(), [0x61]⟩)], 1⟩

/-- Claim C5: the `RESULT` type is `int32_t` with wire values exactly
`Ok = 0`, `ErrUnknown = -1`, `ErrUtf8 = -2`, `ErrClosed = -3`; `Ok` is 0,
every non-Ok code is negative, the four codes are pairwise distinct and
each fits in a signed 32-bit integer. -/
theorem claim_c5_status_wire_values :
    RESULT_OK = 0 ∧ RESULT_ERR_UNKNOWN = -1 ∧ RESULT_ERR_UTF8 = -2 ∧
    RESULT_ERR_CLOSED = -3 ∧
    RESULT_ERR_UNKNOWN < 0 ∧ RESULT_ERR_UTF8 < 0 ∧ RESULT_ERR_CLOSED < 0 ∧
    (RESULT_OK ≠ RESULT_ERR_UNKNOWN ∧ RESULT_OK ≠ RESULT_ERR_UTF8 ∧
      RESULT_OK ≠ RESULT_ERR_CLOSED ∧ RESULT_ERR_UNKNOWN ≠ RESULT_ERR_UTF8 ∧
      RESULT_ERR_UNKNOWN ≠ RESULT_ERR_CLOSED ∧
      RESULT_ERR_UTF8 ≠ RESULT_ERR_CLOSED) ∧
    (int32Range RESULT_OK ∧ int32Range RESULT_ERR_UNKNOWN ∧
      int32Range RESULT_ERR_UTF8 ∧ int32Range RESULT_ERR_CLOSED) ∧
    (Status.ok.wire = RESULT_OK ∧ Status.errUnknown.wire = RESULT_ERR_UNKNOWN ∧
      Status.errUtf8.wire = RESULT_ERR_UTF8 ∧
      Status.errClosed.wire = RESULT_ERR_CLOSED) := by
  refine ⟨rfl, rfl, rfl, rfl, by decide, by decide, by decide,
    ⟨by decide, by decide, by decide, by decide, by decide, by decide⟩,
    ⟨⟨by decide, by decide⟩, ⟨by decide, by decide⟩, ⟨by decide, by decide⟩,
      ⟨by decide, by decide⟩⟩, rfl, rfl, rfl, rfl⟩

/-- Looking up an identity after its instance was removed finds nothing. -/
theorem lookupInst_removeInst_self (id : Nat) (l : List (Nat × RdpRuntime W)) :
    lookupInst id (removeInst id l) = none := by
  induction l with
  | nil => rfl
  | cons p rest ih =>
    by_cases h : p.1 = id
    · simpa [removeInst, h] using ih
    · simpa [removeInst, lookupInst, h] using ih

/-- Removing one identity leaves lookups of any other identity unchanged. -/
theorem lookupInst_removeInst_ne (j id : Nat) (l : List (Nat × RdpRuntime W))
    (h : j ≠ id) : lookupInst j (removeInst id l) = lookupInst j l := by
  induction l with
  | nil => rfl
  | cons p rest ih =>
    have hij : id ≠ j := Ne.symm h
    by_cases hp : p.1 = id
    · simp [removeInst, lookupInst, hp, hij, ih]
    · by_cases hj : p.1 = j
      · simp [removeInst, lookupInst, hp, hj, h]
      · simp [removeInst, lookupInst, hp, hj, ih]

/-- Replacing the instance stored under a live identity makes lookups of
that identity return the replacement. -/
theorem lookupInst_setInst_self (id : Nat) (inst inst0 : RdpRuntime W)
    (l : List (Nat × RdpRuntime W)) (h : lookupInst id l = some inst0) :
    lookupInst id (setInst id inst l) = some inst := by
  induction l with
  | nil => simp [lookupInst] at h
  | cons p rest ih =>
    by_cases hp : p.1 = id
    · simp [setInst, lookupInst, hp]
    · have h' : lookupInst id rest = some inst0 := by
        simpa [lookupInst, hp] using h
      simp [setInst, lookupInst, hp, ih h']

/-- An identity at least as large as every key of the list is absent. -/
theorem lookupInst_fresh (n : Nat) (l : List (Nat × RdpRuntime W))
    (h : ∀ p ∈ l, p.1 < n) : lookupInst n l = none := by
  induction l with
  | nil => rfl
  | cons p rest ih =>
    have hp : p.1 ≠ n := Nat.ne_of_lt (h p (List.mem_cons_self p rest))
    simp [lookupInst, hp]
    exact ih fun q hq => h q (List.mem_cons_of_mem p hq)

/-- Every status maps onto one of the four wire codes of `rdp.h`. -/
theorem wire_mem_codes (s : Status) :
    s.wire = RESULT_OK ∨ s.wire = RESULT_ERR_UNKNOWN ∨
    s.wire = RESULT_ERR_UTF8 ∨ s.wire = RESULT_ERR_CLOSED := by
  cases s
  · exact Or.inl rfl
  · exact Or.inr (Or.inl rfl)
  · exact Or.inr (Or.inr (Or.inl rfl))
  · exact Or.inr (Or.inr (Or.inr rfl))

/-- A successful update replaces the stored workload and applied
configuration of the addressed instance and reports `Ok`. -/
theorem update_config_step (A : Adapter W) (w : RdpWorld W) (id : Nat)
    (inst : RdpRuntime W) (c : List Nat) (wl' : W)
    (hinst : lookupInst id w.instances = some inst)
    (hc : validUtf8 c = true)
    (hupd : A.update inst.workload c = .ok wl') :
    rdp_update_config A w (some id) c =
      (.ok, ⟨setInst id ⟨wl', c⟩ w.instances, w.nextId⟩) := by
  simp [rdp_update_config, hc, hinst, hupd]

/-- Serialized updates, all valid and all accepted by the adapter, leave
the instance live with the configuration of the last call applied. -/
theorem runUpdates_applied (A : Adapter W) (id : Nat) :
    ∀ (order : List (List Nat)) (w : RdpWorld W) (inst : RdpRuntime W),
      lookupInst id w.instances = some inst →
      (∀ c ∈ order, validUtf8 c = true) →
      (∀ (wl : W), ∀ c ∈ order, ∃ wl', A.update wl c = .ok wl') →
      ∃ inst' : RdpRuntime W,
        lookupInst id (runUpdates A (some id) w order).instances = some inst' ∧
        inst'.appliedConfig = order.getLastD inst.appliedConfig := by
  intro order
  induction order with
  | nil => exact fun w inst hinst _ _ => ⟨inst, hinst, rfl⟩
  | cons c rest ih =>
    intro w inst hinst hvalid hacc
    obtain ⟨wl', hupd⟩ := hacc inst.workload c (List.mem_cons_self c rest)
    have hstep := update_config_step A w id inst c wl' hinst
      (hvalid c (List.mem_cons_self c rest)) hupd
    have hinst' : lookupInst id (setInst id ⟨wl', c⟩ w.instances) =
        some ⟨wl', c⟩ :=
      lookupInst_setInst_self id ⟨wl', c⟩ inst w.instances hinst
    obtain ⟨inst', hl, hcfg⟩ :=
      ih ⟨setInst id ⟨wl', c⟩ w.instances, w.nextId⟩ ⟨wl', c⟩ hinst'
        (fun d hd => hvalid d (List.mem_cons_of_mem c hd))
        (fun wl d hd => hacc wl d (List.mem_cons_of_mem c hd))
    refine ⟨inst', ?_, ?_⟩
    · show lookupInst id (runUpdates A (some id)
        (rdp_update_config A w (some id) c).2 rest).instances = some inst'
      rw [hstep]
      exact hl
    · rw [hcfg]
      exact (List.getLastD_cons inst.appliedConfig c rest).symm

/-- Claim C2: for every byte sequence `c` that is not valid UTF-8, both
`rdp_run` and `rdp_update_config` report `ErrUtf8`, change no state,
produce no handle, and repeating either call has the same observable
effect. -/
theorem claim_c2_utf8_boundary (A : Adapter W) (w : RdpWorld W) (rdp : RDP)
    (c : List Nat) (hc : validUtf8 c = false) :
    rdp_run A w c = (.errUtf8, w, none) ∧
    rdp_update_config A w rdp c = (.errUtf8, w) ∧
    rdp_run A (rdp_run A w c).2.1 c = (.errUtf8, w, none) ∧
    rdp_update_config A (rdp_update_config A w rdp c).2 rdp c =
      (.errUtf8, w) := by
  simp [rdp_run, rdp_update_config, hc]

/-- Concrete run of claim C2 on the malformed byte `0xFF`. -/
theorem claim_c2_witness :
    validUtf8 [0xFF] = false ∧
    (rdp_run allowAll oneInstWorld [0xFF] =
        (Status.errUtf8, oneInstWorld, none) ∧
      rdp_update_config allowAll oneInstWorld (some 0) [0xFF] =
        (Status.errUtf8, oneInstWorld) ∧
      rdp_run allowAll (rdp_run allowAll oneInstWorld [0xFF]).2.1 [0xFF] =
        (Status.errUtf8, oneInstWorld, none) ∧
      rdp_update_config allowAll
          (rdp_update_config allowAll oneInstWorld (some 0) [0xFF]).2
          (some 0) [0xFF] =
        (Status.errUtf8, oneInstWorld)) :=
  ⟨by decide, claim_c2_utf8_boundary allowAll oneInstWorld (some 0) [0xFF]
    (by decide)⟩

/-- Claim C3: if the adapter rejects a new configuration for a running
instance, the failed update reports `ErrUnknown`, the world is unchanged
and the instance is still running with its previous configuration. -/
theorem claim_c3_update_rollback (A : Adapter W) (w : RdpWorld W) (id : Nat)
    (inst : RdpRuntime W) (c2 : List Nat)
    (hrun : lookupInst id w.instances = some inst)
    (hc : validUtf8 c2 = true)
    (hrej : A.update inst.workload c2 = .error ()) :
    rdp_update_config A w (some id) c2 = (.errUnknown, w) ∧
    lookupInst id (rdp_update_config A w (some id) c2).2.instances =
      some inst := by
  have h1 : rdp_update_config A w (some id) c2 = (.errUnknown, w) := by
    simp [rdp_update_config, hc, hrun, hrej]
  exact ⟨h1, by rw [h1]; exact hrun⟩

/-- Concrete run of claim C3: the rejecting adapter leaves the instance
running with `[0x61]` applied after a failed update to `[0x62]`. -/
theorem claim_c3_witness :
    lookupInst 0 oneInstWorld.instances = some ⟨(), [0x61]⟩ ∧
    validUtf8 [0x62] = true ∧
    rejectUpd.update () [0x62] = .error () ∧
    (rdp_update_config rejectUpd oneInstWorld (some 0) [0x62] =
        (Status.errUnknown, oneInstWorld) ∧
      lookupInst 0
          (rdp_update_config rejectUpd oneInstWorld (some 0) [0x62]).2.instances =
        some ⟨(), [0x61]⟩) :=
  ⟨rfl, by decide, rfl,
    claim_c3_update_rollback rejectUpd oneInstWorld 0 ⟨(), [0x61]⟩ [0x62]
      rfl (by decide) rfl⟩

/-- After a stop, the value written back into the handle variable of the
caller is always null. -/
theorem rdp_stop_writes_none (A : Adapter W) (w : RdpWorld W) (rdp : RDP) :
    (rdp_stop A w rdp).2.2 = none := by
  cases rdp with
  | none => rfl
  | some id => cases hl : lookupInst id w.instances <;> simp [rdp_stop, hl]

/-- After a stop on a live identity, the backing storage of that identity
is gone from the resulting world. -/
theorem rdp_stop_reclaims (A : Adapter W) (w : RdpWorld W) (id : Nat) :
    lookupInst id (rdp_stop A w (some id)).2.1.instances = none := by
  cases hl : lookupInst id w.instances with
  | none => simp [rdp_stop, hl]
  | some inst => simp [rdp_stop, hl, lookupInst_removeInst_self]

/-- A stop on an identity with no backing storage reports `ErrClosed` and
changes nothing. -/
theorem rdp_stop_closed_of_gone (A : Adapter W) (w : RdpWorld W) (id : Nat)
    (h : lookupInst id w.instances = none) :
    rdp_stop A w (some id) = (.errClosed, w, none) := by
  simp [rdp_stop, h]

/-- An update through an identity with no backing storage reports
`ErrClosed` and changes nothing, provided the configuration is valid
UTF-8. -/
theorem rdp_update_closed_of_gone (A : Adapter W) (w : RdpWorld W) (id : Nat)
    (c : List Nat) (hc : validUtf8 c = true)
    (h : lookupInst id w.instances = none) :
    rdp_update_config A w (some id) c = (.errClosed, w) := by
  simp [rdp_update_config, hc, h]

/-- Claim C1 as frozen is refuted on the model: after a successful start
and stop of the produced handle, an update on that same stale handle with
a malformed-UTF-8 configuration reports `ErrUtf8`, not `ErrClosed`,
because the encoding check happens at the boundary before the
closed-handle check. -/
theorem claim_c1_counterexample :
    (rdp_run allowAll (RdpWorld.empty Unit) [0x61]).1 = Status.ok ∧
    (rdp_stop allowAll (rdp_run allowAll (RdpWorld.empty Unit) [0x61]).2.1
        (rdp_run allowAll (RdpWorld.empty Unit) [0x61]).2.2).1 = Status.ok ∧
    (rdp_update_config allowAll
        (rdp_stop allowAll (rdp_run allowAll (RdpWorld.empty Unit) [0x61]).2.1
          (rdp_run allowAll (RdpWorld.empty Unit) [0x61]).2.2).2.1
        (rdp_run allowAll (RdpWorld.empty Unit) [0x61]).2.2 [0xFF]).1 ≠
      Status.errClosed := by
  decide

/-- Claim C1 amended: after a stop returns (with any status), a further
stop through the nulled handle variable, or on the same stale logical
handle, always reports `ErrClosed`; a further update reports `ErrClosed`
for every valid-UTF-8 configuration (for malformed configurations it
reports `ErrUtf8`, since the encoding check precedes the closed-handle
check); every such call returns a status and never mutates the world. -/
theorem claim_c1_stop_then_closed (A : Adapter W) (w : RdpWorld W)
    (rdp : RDP) (c : List Nat) (hc : validUtf8 c = true) :
    rdp_update_config A (rdp_stop A w rdp).2.1 (rdp_stop A w rdp).2.2 c =
      (.errClosed, (rdp_stop A w rdp).2.1) ∧
    (rdp_stop A (rdp_stop A w rdp).2.1 (rdp_stop A w rdp).2.2).1 =
      .errClosed ∧
    (∀ id, rdp = some id →
      rdp_update_config A (rdp_stop A w rdp).2.1 (some id) c =
        (.errClosed, (rdp_stop A w rdp).2.1) ∧
      (rdp_stop A (rdp_stop A w rdp).2.1 (some id)).1 = .errClosed) := by
  have hnull := rdp_stop_writes_none A w rdp
  refine ⟨?_, ?_, ?_⟩
  · rw [hnull]
    simp [rdp_update_config, hc]
  · rw [hnull]
    rfl
  · rintro id rfl
    have hgone := rdp_stop_reclaims A w id
    constructor
    · exact rdp_update_closed_of_gone A _ id c hc hgone
    · rw [rdp_stop_closed_of_gone A _ id hgone]

/-- Concrete run of the amended claim C1: stopping the one live handle,
then updating or stopping again, reports `ErrClosed`. -/
theorem claim_c1_witness :
    validUtf8 [0x62] = true ∧
    (rdp_update_config allowAll (rdp_stop allowAll oneInstWorld (some 0)).2.1
        (rdp_stop allowAll oneInstWorld (some 0)).2.2 [0x62] =
      (Status.errClosed, (rdp_stop allowAll oneInstWorld (some 0)).2.1)) ∧
    ((rdp_stop allowAll (rdp_stop allowAll oneInstWorld (some 0)).2.1
        (rdp_stop allowAll oneInstWorld (some 0)).2.2).1 = Status.errClosed) ∧
    (rdp_update_config allowAll (rdp_stop allowAll oneInstWorld (some 0)).2.1
        (some 0) [0x62] =
      (Status.errClosed, (rdp_stop allowAll oneInstWorld (some 0)).2.1)) ∧
    ((rdp_stop allowAll (rdp_stop allowAll oneInstWorld (some 0)).2.1
        (some 0)).1 = Status.errClosed) := by
  have h := claim_c1_stop_then_closed allowAll oneInstWorld (some 0) [0x62]
    (by decide)
  exact ⟨by decide, h.1, h.2.1, (h.2.2 0 rfl).1, (h.2.2 0 rfl).2⟩

/-- Claim C4: for every valid-UTF-8 configuration, start either succeeds
and registers exactly one fresh, live, exclusively owned instance whose
handle it returns, or fails with a non-Ok status, an unchanged world and
no handle; no partially initialized instance is ever exposed. -/
theorem claim_c4_start_all_or_nothing (A : Adapter W) (w : RdpWorld W)
    (c : List Nat) (hwf : WF w) (hc : validUtf8 c = true) :
    (∃ wl, A.start c = .ok wl ∧
      rdp_run A w c =
        (.ok, ⟨(w.nextId, ⟨wl, c⟩) :: w.instances, w.nextId + 1⟩,
          some w.nextId) ∧
      lookupInst w.nextId w.instances = none ∧
      lookupInst w.nextId
          ((w.nextId, (⟨wl, c⟩ : RdpRuntime W)) :: w.instances) =
        some ⟨wl, c⟩) ∨
    (A.start c = .error () ∧ rdp_run A w c = (.errUnknown, w, none)) := by
  cases hs : A.start c with
  | ok wl =>
    refine Or.inl ⟨wl, rfl, by simp [rdp_run, hc, hs], lookupInst_fresh _ _ hwf,
      by simp [lookupInst]⟩
  | error e =>
    cases e
    exact Or.inr ⟨rfl, by simp [rdp_run, hc, hs]⟩

/-- Concrete run of claim C4 from the empty world on the configuration
`[0x61]`. -/
theorem claim_c4_witness :
    WF (RdpWorld.empty Unit) ∧ validUtf8 [0x61] = true ∧
    ((∃ wl, allowAll.start [0x61] = .ok wl ∧
      rdp_run allowAll (RdpWorld.empty Unit) [0x61] =
        (.ok, ⟨((RdpWorld.empty Unit).nextId, ⟨wl, [0x61]⟩) ::
            (RdpWorld.empty Unit).instances,
          (RdpWorld.empty Unit).nextId + 1⟩,
          some (RdpWorld.empty Unit).nextId) ∧
      lookupInst (RdpWorld.empty Unit).nextId
          (RdpWorld.empty Unit).instances = none ∧
      lookupInst (RdpWorld.empty Unit).nextId
          (((RdpWorld.empty Unit).nextId, (⟨wl, [0x61]⟩ : RdpRuntime Unit)) ::
            (RdpWorld.empty Unit).instances) =
        some ⟨wl, [0x61]⟩) ∨
    (allowAll.start [0x61] = .error () ∧
      rdp_run allowAll (RdpWorld.empty Unit) [0x61] =
        (.errUnknown, RdpWorld.empty Unit, none))) :=
  ⟨by decide, by decide,
    claim_c4_start_all_or_nothing allowAll (RdpWorld.empty Unit) [0x61]
      (by decide) (by decide)⟩

/-- Claim C6: two successful starts produce distinct handles, and
stopping the first leaves the instance behind the second untouched:
still registered, with the same workload state and applied
configuration. -/
theorem claim_c6_independent_handles (A : Adapter W) (w w1 w2 : RdpWorld W)
    (c1 c2 : List Nat) (h1 h2 : Nat)
    (e1 : rdp_run A w c1 = (.ok, w1, some h1))
    (e2 : rdp_run A w1 c2 = (.ok, w2, some h2)) :
    h1 ≠ h2 ∧
    ∃ inst2 : RdpRuntime W,
      lookupInst h2 w2.instances = some inst2 ∧
      inst2.appliedConfig = c2 ∧
      lookupInst h2 (rdp_stop A w2 (some h1)).2.1.instances = some inst2 := by
  by_cases hv1 : validUtf8 c1
  case neg => simp [rdp_run, hv1] at e1
  cases hs1 : A.start c1 with
  | error e => simp [rdp_run, hv1, hs1] at e1
  | ok wl1 =>
    simp only [rdp_run, if_pos hv1, hs1, Prod.mk.injEq, Option.some.injEq,
      true_and] at e1
    obtain ⟨hw1, hh1⟩ := e1
    subst hw1
    subst hh1
    by_cases hv2 : validUtf8 c2
    case neg => simp [rdp_run, hv2] at e2
    cases hs2 : A.start c2 with
    | error e => simp [rdp_run, hv2, hs2] at e2
    | ok wl2 =>
      simp only [rdp_run, if_pos hv2, hs2, Prod.mk.injEq, Option.some.injEq,
        true_and] at e2
      obtain ⟨hw2, hh2⟩ := e2
      subst hw2
      subst hh2
      have hne : w.nextId + 1 ≠ w.nextId := Nat.succ_ne_self w.nextId
      constructor
      · exact fun hcontra => hne hcontra.symm
      · refine ⟨⟨wl2, c2⟩, by simp [lookupInst], rfl, ?_⟩
        have hl1 : lookupInst w.nextId
            ((w.nextId + 1, (⟨wl2, c2⟩ : RdpRuntime W)) ::
              (w.nextId, ⟨wl1, c1⟩) :: w.instances) = some ⟨wl1, c1⟩ := by
          simp [lookupInst, hne]
        simp only [rdp_stop, hl1]
        rw [lookupInst_removeInst_ne _ _ _ hne]
        simp [lookupInst]

/-- Concrete run of claim C6: two starts from the empty world give the
handles 0 and 1, and stopping handle 0 leaves instance 1 registered with
its configuration `[0x62]`. -/
theorem claim_c6_witness :
    rdp_run allowAll (RdpWorld.empty Unit) [0x61] =
      (Status.ok, oneInstWorld, some 0) ∧
    rdp_run allowAll oneInstWorld [0x62] =
      (Status.ok, ⟨[(1, ⟨(), [0x62]⟩), (0, ⟨(), [0x61]⟩)], 2⟩, some 1) ∧
    ((0 : Nat) ≠ 1 ∧
      ∃ inst2 : RdpRuntime Unit,
        lookupInst 1
            (RdpWorld.mk [(1, ⟨(), [0x62]⟩), (0, ⟨(), [0x61]⟩)] 2).instances =
          some inst2 ∧
        inst2.appliedConfig = [0x62] ∧
        lookupInst 1
            (rdp_stop allowAll
              (RdpWorld.mk [(1, ⟨(), [0x62]⟩), (0, ⟨(), [0x61]⟩)] 2)
              (some 0)).2.1.instances =
          some inst2) :=
  ⟨by decide, by decide,
    claim_c6_independent_handles allowAll (RdpWorld.empty Unit) oneInstWorld
      (RdpWorld.mk [(1, ⟨(), [0x62]⟩), (0, ⟨(), [0x61]⟩)] 2)
      [0x61] [0x62] 0 1 (by decide) (by decide)⟩

/-- Claim C7: under the per-handle serialization guarantee, N update
calls against one live handle executed in any serial order, each with a
valid configuration the adapter accepts, leave exactly one of the N
configurations applied, namely the configuration of the last call of
that serial order; there is no interleaved or torn application. -/
theorem claim_c7_serialized_updates (A : Adapter W) (w : RdpWorld W)
    (id : Nat) (inst : RdpRuntime W) (cs order : List (List Nat))
    (clast : List Nat)
    (hinst : lookupInst id w.instances = some inst)
    (hperm : order.Perm cs)
    (hvalid : ∀ c ∈ cs, validUtf8 c = true)
    (hacc : ∀ (wl : W), ∀ c ∈ cs, ∃ wl', A.update wl c = .ok wl')
    (hlast : order.getLast? = some clast) :
    ∃ inst' : RdpRuntime W,
      lookupInst id (runUpdates A (some id) w order).instances = some inst' ∧
      inst'.appliedConfig = clast ∧ clast ∈ cs := by
  have hvo : ∀ c ∈ order, validUtf8 c = true :=
    fun c hco => hvalid c (hperm.mem_iff.mp hco)
  have hao : ∀ (wl : W), ∀ c ∈ order, ∃ wl', A.update wl c = .ok wl' :=
    fun wl c hco => hacc wl c (hperm.mem_iff.mp hco)
  obtain ⟨inst', hl, hcfg⟩ := runUpdates_applied A id order w inst hinst hvo hao
  have hmem : clast ∈ order := by
    obtain ⟨hne, heq⟩ := List.mem_getLast?_eq_getLast (Option.mem_def.mpr hlast)
    rw [heq]
    exact List.getLast_mem hne
  have hld : order.getLastD inst.appliedConfig = clast := by
    rw [List.getLastD_eq_getLast?, hlast]
    rfl
  exact ⟨inst', hl, by rw [hcfg, hld], hperm.mem_iff.mp hmem⟩

/-- Concrete run of claim C7: the calls `{[0x62], [0x63]}` executed in
the serial order `[0x63]` then `[0x62]` leave `[0x62]`, the last of the
order, applied. -/
theorem claim_c7_witness :
    List.Perm [[0x63], [0x62]] [([0x62] : List Nat), [0x63]] ∧
    (∃ inst' : RdpRuntime Unit,
      lookupInst 0
          (runUpdates allowAll (some 0) oneInstWorld
            [[0x63], [0x62]]).instances = some inst' ∧
      inst'.appliedConfig = [0x62] ∧ [0x62] ∈ [([0x62] : List Nat), [0x63]]) :=
  ⟨by decide,
    claim_c7_serialized_updates allowAll oneInstWorld 0 ⟨(), [0x61]⟩
      [[0x62], [0x63]] [[0x63], [0x62]] [0x62] rfl (by decide) (by decide)
      (fun wl c hc => ⟨(), rfl⟩) rfl⟩

/-- Claim C8: the logger installer is idempotent: a second call changes
nothing, one call installs exactly the one process-wide sink, and any
number of calls never leaves more than one sink installed; it returns no
status and cannot fail. -/
theorem claim_c8_logger_idempotent (s : LoggerState) (n : Nat) :
    rdp_setup_stdout_logger (rdp_setup_stdout_logger s) =
      rdp_setup_stdout_logger s ∧
    sinkCount (rdp_setup_stdout_logger s) = 1 ∧
    sinkCount (Nat.iterate rdp_setup_stdout_logger n s) ≤ 1 := by
  refine ⟨rfl, rfl, ?_⟩
  have h : ∀ t : LoggerState, sinkCount t ≤ 1 := by
    intro t
    cases t with
    | mk b => cases b <;> simp [sinkCount]
  exact h _

/-- Claim C9: every lifecycle operation returns exactly one status, and
that status always lies in the closed wire-code set of `rdp.h`; `Ok`
carries no payload and failure diagnostics are not part of the returned
value. -/
theorem claim_c9_closed_status_set (A : Adapter W) (w : RdpWorld W)
    (rdp : RDP) (c : List Nat) :
    ((rdp_run A w c).1.wire = RESULT_OK ∨
      (rdp_run A w c).1.wire = RESULT_ERR_UNKNOWN ∨
      (rdp_run A w c).1.wire = RESULT_ERR_UTF8 ∨
      (rdp_run A w c).1.wire = RESULT_ERR_CLOSED) ∧
    ((rdp_update_config A w rdp c).1.wire = RESULT_OK ∨
      (rdp_update_config A w rdp c).1.wire = RESULT_ERR_UNKNOWN ∨
      (rdp_update_config A w rdp c).1.wire = RESULT_ERR_UTF8 ∨
      (rdp_update_config A w rdp c).1.wire = RESULT_ERR_CLOSED) ∧
    ((rdp_stop A w rdp).1.wire = RESULT_OK ∨
      (rdp_stop A w rdp).1.wire = RESULT_ERR_UNKNOWN ∨
      (rdp_stop A w rdp).1.wire = RESULT_ERR_UTF8 ∨
      (rdp_stop A w rdp).1.wire = RESULT_ERR_CLOSED) :=
  ⟨wire_mem_codes _, wire_mem_codes _, wire_mem_codes _⟩

/-- Claim C10: `rdp_update_config` receives the handle by value, so the
handle variable of the caller is unchanged when the call returns, while
`rdp_stop` (and `rdp_run`), receiving the address of that variable, do
write a new value into it: after a stop of a non-null handle the
variable holds null, a different value. -/
theorem claim_c10_handle_by_value (A : Adapter W) (w : RdpWorld W)
    (rdp : RDP) (c : List Nat) (id : Nat) :
    (update_call A w rdp c).2.2 = rdp ∧
    (update_call A w rdp c).1 = (rdp_update_config A w rdp c).1 ∧
    (update_call A w rdp c).2.1 = (rdp_update_config A w rdp c).2 ∧
    (rdp_stop A w (some id)).2.2 = none ∧ (none : RDP) ≠ some id ∧
    (run_call A w rdp c).2.2 = (rdp_run A w c).2.2 :=
  ⟨rfl, rfl, rfl, rdp_stop_writes_none A w (some id),
    fun h => Option.noConfusion h, rfl⟩
